import Mathlib

/-!
Shallow embedding of the ARS430 ROS driver node
(src/kinetic_workspace/sandbox/ars430/scripts/ars430.py).

Modelling conventions:
* Raw packet bytes are `List Nat`, one entry per octet.
* Python float arithmetic is modelled exactly over `ℚ`; the decimal literals
  of the source (0.931322575049159, 0.1, ...) become the exact rationals they
  denote.
* `struct.unpack` failures and other Python exceptions are modelled with
  `Except String` (`.error` = an exception escapes the call).
* The angle fields of `RadarDetection` are stored in units of π rad: the
  source multiplies by `2*math.pi`, and the irrational factor π is kept
  symbolic so that every definition stays executable over `ℚ`.
* The ROS message classes (`ARS430Event`, `ARS430Status`, `RadarDetection`)
  are not under src/; their fields are taken from the assignments the driver
  performs on them.  The driver writes the event timestamp as
  `packet.TimeStamp` (UnpackEvent) and reads it as `event.Timestamp`
  (__storeEvent); the declaration of the message is absent, so a single field
  `Timestamp` — the spelling of the spec's data model — is used for both.
-/

/-- Big-endian read of `n` bytes of `l` starting at offset `off`; models the
extraction of one unsigned field by `struct.unpack("!…")`. -/
def beBytes (l : List Nat) (off n : Nat) : Nat :=
  (List.range n).foldl (fun acc j => acc * 256 + l.getD (off + j) 0) 0

/-- Big-endian signed 16-bit read (`struct` format code `h`). -/
def beI16 (l : List Nat) (off : Nat) : Int :=
  let v := beBytes l off 2
  if v < 32768 then (v : Int) else (v : Int) - 65536

/-- One element of the `DetectionList` of an event message, with the unit
scalings applied by `UnpackRadarDetections`.  Angle fields are in units of
π rad (see the module comment). -/
structure RadarDetection where
  Range : ℚ := 0
  RelativeRadialVelocity : ℚ := 0
  AzimuthalAngle0 : ℚ := 0
  AzimuthalAngle1 : ℚ := 0
  ElevationAngle : ℚ := 0
  RadarCrossSection0 : ℚ := 0
  RadarCrossSection1 : ℚ := 0
  ProbabilityAz0 : ℚ := 0
  ProbabilityAz1 : ℚ := 0
  RangeVariance : ℚ := 0
  RadialVelocityVariance : ℚ := 0
  Az0Variance : ℚ := 0
  Az1Variance : ℚ := 0
  ElAngleVariance : ℚ := 0
  ProbabilityFalseDetection : ℚ := 0
  SNR : ℚ := 0
  deriving DecidableEq, Repr

/-- The ARS430Event message, fields as assigned by `UnpackEvent`. -/
structure ARS430Event where
  CRC : Nat := 0
  Len : Nat := 0
  SQC : Nat := 0
  MessageCounter : Nat := 0
  UtcTimeStamp : Nat := 0
  Timestamp : Nat := 0
  MeasureCounter : Nat := 0
  CycleCounter : Nat := 0
  NofDet : Nat := 0
  Vambig : ℚ := 0
  CenterFreq : Nat := 0
  DetInPack : Nat := 0
  EventType : Option Nat := none
  DetectionList : List RadarDetection := []
  sourceIP : String := ""
  deriving DecidableEq, Repr

/-- The ARS430Status message, fields as assigned by `UnpackStatus`. -/
structure ARS430Status where
  CRC : Nat := 0
  Len : Nat := 0
  SQC : Nat := 0
  PartNumber : Nat := 0
  AssemblyPartNumber : Nat := 0
  SWPartNumber : Nat := 0
  SerialNumber : List Nat := []
  BLVersion : Nat := 0
  BLCRC : Nat := 0
  SWVersion : Nat := 0
  SWCRC : Nat := 0
  UTCTimestamp : Nat := 0
  Timestamp : Nat := 0
  CurrentDamping : ℚ := 0
  Opstate : Nat := 0
  CurrentFarCF : Nat := 0
  CurrentNearCF : Nat := 0
  Defective : Nat := 0
  SupplyVoltLimit : Nat := 0
  SensorOffTemp : Nat := 0
  GmMissing : Nat := 0
  TxOutReduced : Nat := 0
  MaximumRangeFar : ℚ := 0
  MaximumRangeNear : ℚ := 0
  sourceIP : String := ""
  deriving DecidableEq, Repr

namespace ARS430Publisher

/-- Enumerator defining the ARS430 header types. -/
inductive Headers where
  | STATUS
  | FAR0
  | FAR1
  | NEAR0
  | NEAR1
  | NEAR2
  deriving DecidableEq, BEq, Repr

/-- The Python `enum` value of each `Headers` member
(`STATUS = 5, FAR0 = 0, FAR1 = 1, NEAR0 = 2, NEAR1 = 3, NEAR2 = 4`). -/
def Headers.value : Headers → Nat
  | .STATUS => 5
  | .FAR0 => 0
  | .FAR1 => 1
  | .NEAR0 => 2
  | .NEAR1 => 3
  | .NEAR2 => 4

/-- The ARS430 has a header length of 16 bytes. -/
def HEADER_LEN : Nat := 16

def STATUS_HEADER_BYTES : List Nat := [0x00, 0xc8, 0x00, 0x00]

def FAR0_HEADER_BYTES : List Nat := [0x00, 0xdc, 0x00, 0x01]

def FAR1_HEADER_BYTES : List Nat := [0x00, 0xdc, 0x00, 0x02]

def NEAR0_HEADER_BYTES : List Nat := [0x00, 0xdc, 0x00, 0x03]

def NEAR1_HEADER_BYTES : List Nat := [0x00, 0xdc, 0x00, 0x04]

def NEAR2_HEADER_BYTES : List Nat := [0x00, 0xdc, 0x00, 0x05]

/-- Byte offset of event data at which the RadarDetection list begins. -/
def RADAR_DETECTION_START : Nat := 32

/-- Number of bytes in one element of the RadarDetection list. -/
def RADAR_DETECTION_PACKAGE_LENGTH : Nat := 28

/-- Byte offset of status data where SerialNumber begins. -/
def SERIAL_NUMBER_START : Nat := 29

/-- Number of bytes in the SerialNumber of status data. -/
def SERIAL_NUMBER_LENGTH : Nat := 26

/-- `FindHeader`: slice off the first 16 bytes, compare the first 4 of them
against the six magic constants; Python returns `None` implicitly when no
branch matches.  Python slicing never fails, so the function is total. -/
def FindHeader (data : List Nat) : Option Headers :=
  let header := data.take HEADER_LEN
  let headerID := header.take 4
  if headerID = STATUS_HEADER_BYTES then some Headers.STATUS
  else if headerID = FAR0_HEADER_BYTES then some Headers.FAR0
  else if headerID = FAR1_HEADER_BYTES then some Headers.FAR1
  else if headerID = NEAR0_HEADER_BYTES then some Headers.NEAR0
  else if headerID = NEAR1_HEADER_BYTES then some Headers.NEAR1
  else if headerID = NEAR2_HEADER_BYTES then some Headers.NEAR2
  else none

/-- The same six-way comparison chain applied directly to a 4-byte header ID;
used to state that `FindHeader` depends only on the 4-byte prefix. -/
def headerIDLookup (headerID : List Nat) : Option Headers :=
  if headerID = STATUS_HEADER_BYTES then some Headers.STATUS
  else if headerID = FAR0_HEADER_BYTES then some Headers.FAR0
  else if headerID = FAR1_HEADER_BYTES then some Headers.FAR1
  else if headerID = NEAR0_HEADER_BYTES then some Headers.NEAR0
  else if headerID = NEAR1_HEADER_BYTES then some Headers.NEAR1
  else if headerID = NEAR2_HEADER_BYTES then some Headers.NEAR2
  else none

/-- `merge24` from `UnpackStatus`. -/
def merge24 (int8_part1 int8_part2 int8_part3 : Nat) : Nat :=
  (int8_part1 <<< 16) ||| (int8_part2 <<< 8) ||| int8_part3

/-- `UnpackStatus`: split the status bytes into the section before the serial
number (format `!HHBQQQ`, 29 bytes), the 26-byte serial number, and the
section after it (format `!BBBLBBBLQLLBBBBBBBBHH`, 42 bytes).  `struct.unpack`
raises `struct.error` unless each section has exactly the format's size. -/
def UnpackStatus (statusData : List Nat) : Except String ARS430Status :=
  let before_sn := statusData.take SERIAL_NUMBER_START
  let serial_number_end_byte := SERIAL_NUMBER_START + SERIAL_NUMBER_LENGTH
  let _SerialNumber := (statusData.drop SERIAL_NUMBER_START).take SERIAL_NUMBER_LENGTH
  let after_sn := statusData.drop serial_number_end_byte
  if before_sn.length = 29 then
    if after_sn.length = 42 then
      Except.ok {
        CRC := beBytes before_sn 0 2
        Len := beBytes before_sn 2 2
        SQC := beBytes before_sn 4 1
        PartNumber := beBytes before_sn 5 8
        AssemblyPartNumber := beBytes before_sn 13 8
        SWPartNumber := beBytes before_sn 21 8
        SerialNumber := _SerialNumber
        BLVersion := merge24 (beBytes after_sn 0 1) (beBytes after_sn 1 1) (beBytes after_sn 2 1)
        BLCRC := beBytes after_sn 3 4
        SWVersion := merge24 (beBytes after_sn 7 1) (beBytes after_sn 8 1) (beBytes after_sn 9 1)
        SWCRC := beBytes after_sn 10 4
        UTCTimestamp := beBytes after_sn 14 8
        Timestamp := beBytes after_sn 22 4
        CurrentDamping := (((beBytes after_sn 26 4 : ℚ) * 0.931322575049159) - 2000000000) / 100000000
        Opstate := beBytes after_sn 30 1
        CurrentFarCF := beBytes after_sn 31 1
        CurrentNearCF := beBytes after_sn 32 1
        Defective := beBytes after_sn 33 1
        SupplyVoltLimit := beBytes after_sn 34 1
        SensorOffTemp := beBytes after_sn 35 1
        GmMissing := beBytes after_sn 36 1
        TxOutReduced := beBytes after_sn 37 1
        MaximumRangeFar := (beBytes after_sn 38 2 : ℚ) * 0.1
        MaximumRangeNear := (beBytes after_sn 40 2 : ℚ) * 0.1
      }
    else Except.error "struct.error"
  else Except.error "struct.error"

/-- One 28-byte chunk of the detection list:
`struct.unpack("!HhhhhhhBBHHHHHBB", chunk)` followed by the unit scalings of
`UnpackRadarDetections`.  `none` models the `struct.error` raised when the
chunk is shorter than 28 bytes. -/
def unpackDetection (chunk : List Nat) : Option RadarDetection :=
  if chunk.length = 28 then
    some {
      Range := (beBytes chunk 0 2 : ℚ) / 65534 * 300
      RelativeRadialVelocity := (beI16 chunk 2 : ℚ) / 65534 * 300
      AzimuthalAngle0 := (beI16 chunk 4 : ℚ) / 65534 * 2
      AzimuthalAngle1 := (beI16 chunk 6 : ℚ) / 65534 * 2
      ElevationAngle := (beI16 chunk 8 : ℚ) / 65534 * 2
      RadarCrossSection0 := (beI16 chunk 10 : ℚ) / 65534 * 200
      RadarCrossSection1 := (beI16 chunk 12 : ℚ) / 65534 * 200
      ProbabilityAz0 := (beBytes chunk 14 1 : ℚ) / 254
      ProbabilityAz1 := (beBytes chunk 15 1 : ℚ) / 254
      RangeVariance := (beBytes chunk 16 2 : ℚ) / 65534 * 10
      RadialVelocityVariance := (beBytes chunk 18 2 : ℚ) / 65534 * 10
      Az0Variance := (beBytes chunk 20 2 : ℚ) / 65534
      Az1Variance := (beBytes chunk 22 2 : ℚ) / 65534
      ElAngleVariance := (beBytes chunk 24 2 : ℚ) / 65534
      ProbabilityFalseDetection := (beBytes chunk 26 1 : ℚ) / 254
      SNR := ((beBytes chunk 27 1 : ℚ) + 110) / 10
    }
  else none

/-- The `while` loop of `UnpackRadarDetections`.  The loop variable is
`index = 28 * k`; the first argument is `numDetections + 1 - k`, so the
Python condition `index/28 <= numDetections` (floor division) is the first
argument being positive, and `index < length` is the remaining byte list
being nonempty.  A chunk shorter than 28 bytes makes `struct.unpack` raise. -/
def unpackDetectionsAux : Nat → List Nat → Except String (List RadarDetection)
  | 0, _ => Except.ok []
  | d + 1, rest =>
    if rest.length = 0 then Except.ok []
    else
      match unpackDetection (rest.take RADAR_DETECTION_PACKAGE_LENGTH) with
      | none => Except.error "struct.error"
      | some detection =>
        (unpackDetectionsAux d (rest.drop RADAR_DETECTION_PACKAGE_LENGTH)).map
          (fun l => detection :: l)

/-- `UnpackRadarDetections`: decode `detection_bytes` into the detection list
(the Python function mutates `packet.DetectionList`; here the list is
returned).  The loop condition is `index < length and index/28 <= numDetections`. -/
def UnpackRadarDetections (detection_bytes : List Nat) (numDetections : Nat) :
    Except String (List RadarDetection) :=
  unpackDetectionsAux (numDetections + 1) detection_bytes

/-- `UnpackEvent`: the first 32 bytes decode with format `!HHBBQLLLHhBB`;
if `DetectionsInPacket > 0` the remaining bytes are handed to
`UnpackRadarDetections`, otherwise the detection list is empty. -/
def UnpackEvent (eventData : List Nat) : Except String ARS430Event :=
  let eventOnlyData := eventData.take RADAR_DETECTION_START
  if eventOnlyData.length = 32 then
    let RDI_DetectionsInPacket := beBytes eventOnlyData 31 1
    let base : ARS430Event := {
      CRC := beBytes eventOnlyData 0 2
      Len := beBytes eventOnlyData 2 2
      SQC := beBytes eventOnlyData 4 1
      MessageCounter := beBytes eventOnlyData 5 1
      UtcTimeStamp := beBytes eventOnlyData 6 8
      Timestamp := beBytes eventOnlyData 14 4
      MeasureCounter := beBytes eventOnlyData 18 4
      CycleCounter := beBytes eventOnlyData 22 4
      NofDet := beBytes eventOnlyData 26 2
      Vambig := (beI16 eventOnlyData 28 : ℚ) / 65534 * 200
      CenterFreq := beBytes eventOnlyData 30 1
      DetInPack := RDI_DetectionsInPacket
      DetectionList := []
    }
    if RDI_DetectionsInPacket > 0 then
      (UnpackRadarDetections (eventData.drop RADAR_DETECTION_START) RDI_DetectionsInPacket).map
        (fun dl => { base with DetectionList := dl })
    else Except.ok base
  else Except.error "struct.error"

/-- The result of `Unpack`: either a status or an event message. -/
inductive UnpackedPacket where
  | status (p : ARS430Status)
  | event (p : ARS430Event)
  deriving DecidableEq, Repr

/-- `Unpack`: classify the header, strip it, and decode.  In the non-STATUS
branch the source runs `UnpackEvent` first and then evaluates
`headerType.value`; when `FindHeader` matched nothing, `headerType` is `None`
and that attribute access raises `AttributeError`. -/
def Unpack (udpData : List Nat) : Except String (UnpackedPacket × Headers) :=
  let headerType := FindHeader udpData
  let data := udpData.drop HEADER_LEN
  if headerType = some Headers.STATUS then
    (UnpackStatus data).map (fun s => (UnpackedPacket.status s, Headers.STATUS))
  else
    match UnpackEvent data with
    | Except.error e => Except.error e
    | Except.ok ev =>
      match headerType with
      | some h => Except.ok (UnpackedPacket.event { ev with EventType := some h.value }, h)
      | none => Except.error "AttributeError"

/-- `__isStatus`. -/
def isStatus (headerType : Headers) : Bool :=
  headerType == Headers.STATUS

/-- `__isNear`. -/
def isNear (headerType : Headers) : Bool :=
  headerType == Headers.NEAR0 || headerType == Headers.NEAR1 ||
    headerType == Headers.NEAR2

/-- `__isFar`. -/
def isFar (headerType : Headers) : Bool :=
  headerType == Headers.FAR0 || headerType == Headers.FAR1

/-- Stamp the source IP on a packet (`packet.sourceIP = self.get_ip()`). -/
def UnpackedPacket.setSourceIP : UnpackedPacket → String → UnpackedPacket
  | .status p, ip => .status { p with sourceIP := ip }
  | .event p, ip => .event { p with sourceIP := ip }

/-- Where `publishNow` sends a packet: the statuses topic, the events topic,
or nowhere. -/
inductive PublishAction where
  | toStatusTopic
  | toEventTopic
  | noPublish
  deriving DecidableEq, Repr

/-- `publishNow`: publish a status immediately; publish an event only if it
had any detections in it (`packet.DetInPack > 0`).  (A status packet paired
with a non-STATUS header would make the source raise reading `DetInPack`;
that pairing is never produced by `Unpack` and is mapped to `noPublish`.) -/
def publishNow (ip : String) (packet : UnpackedPacket) (headerType : Headers) :
    PublishAction × UnpackedPacket :=
  let packet := packet.setSourceIP ip
  if isStatus headerType then (PublishAction.toStatusTopic, packet)
  else
    match packet with
    | .event e =>
      if e.DetInPack > 0 then (PublishAction.toEventTopic, packet)
      else (PublishAction.noPublish, packet)
    | .status _ => (PublishAction.noPublish, packet)

/-- `__storeEvent`: returns the pair (returned packet list, new contents of
the buffer).  The source mutates `previousEventList` in place; the second
component is its contents when the call returns. -/
def storeEvent (event : ARS430Event) (previousEventList : List ARS430Event) :
    List ARS430Event × List ARS430Event :=
  match previousEventList.getLast? with
  | none => ([], [event])
  | some last =>
    if last.Timestamp = event.Timestamp then ([], previousEventList ++ [event])
    else (previousEventList, [event])

/-- The two pending-batch buffers owned by the publisher
(`self.nearPackets`, `self.farPackets`). -/
structure AggState where
  nearPackets : List ARS430Event := []
  farPackets : List ARS430Event := []
  deriving DecidableEq, Repr

/-- Both buffers empty, as set by the constructor. -/
def initialAggState : AggState := {}

/-- `publishTogether`, state-passing form.  First component of the result:
`some (true, packet)` = status published immediately, `some (false, packet)`
= the event was only buffered, `none` = the source fell off the end (the
flush branch ends in an unimplemented TODO and returns `None`, dropping the
collected batch).  Second component: the publisher's buffers afterwards. -/
def publishTogether (ip : String) (s : AggState) (packet : ARS430Event)
    (headerType : Headers) : Option (Bool × ARS430Event) × AggState :=
  let packet := { packet with sourceIP := ip }
  if isStatus headerType then (some (true, packet), s)
  else
    let r :=
      if isNear headerType then
        let r := storeEvent packet s.nearPackets
        (r.1, { s with nearPackets := r.2 })
      else
        let r := storeEvent packet s.farPackets
        (r.1, { s with farPackets := r.2 })
    if r.1 = [] then (some (false, packet), r.2)
    else (none, r.2)

/-- Iterate `publishTogether` over a sequence of arrivals, tracking the
buffer state. -/
def runAgg (ip : String) (s : AggState) (arrivals : List (ARS430Event × Headers)) :
    AggState :=
  arrivals.foldl (fun st pe => (publishTogether ip st pe.1 pe.2).2) s

/-- All elements of a buffer share one identical Timestamp. -/
def sameTimestamp (l : List ARS430Event) : Prop :=
  ∀ x ∈ l, ∀ y ∈ l, x.Timestamp = y.Timestamp

end ARS430Publisher

/-! Concrete inputs used by the theorems below. -/

/-- A buffer of exactly 15 bytes whose first 4 bytes are the STATUS magic. -/
def fifteenByteBuffer : List Nat :=
  [0x00, 0xc8, 0x00, 0x00] ++ List.replicate 11 0

/-- A 48-byte raw packet (16-byte header + a well-formed 32-byte event body
with zero declared detections) whose first 4 bytes match none of the six
header magics. -/
def unknownHeaderPacket : List Nat :=
  [0xde, 0xad, 0xbe, 0xef] ++ List.replicate 44 0

/-- A 97-byte status payload, all zero except: raw CurrentDamping
(absolute offset 81, u32 big-endian) = 2000000000 = 0x77359400, and raw
MaximumRangeFar (absolute offset 93, u16 big-endian) = 3000 = 0x0BB8. -/
def statusC7Input : List Nat :=
  List.replicate 81 0 ++ [0x77, 0x35, 0x94, 0x00] ++ List.replicate 8 0 ++
    [0x0b, 0xb8] ++ List.replicate 2 0

/-- Event reports for the aggregator scenario: three with Timestamp 5 … -/
def ev5a : ARS430Event := { Timestamp := 5, CRC := 1 }

def ev5b : ARS430Event := { Timestamp := 5, CRC := 2 }

def ev5c : ARS430Event := { Timestamp := 5, CRC := 3 }

/-- … and one with Timestamp 7. -/
def ev7 : ARS430Event := { Timestamp := 7, CRC := 4 }

namespace ARS430Publisher

/-! Helper lemmas. -/

/-- `FindHeader` is the six-way magic comparison applied to the first 4 bytes:
`headerID = data[:16][:4] = data[:4]`. -/
theorem FindHeader_eq_headerIDLookup (data : List Nat) :
    FindHeader data = headerIDLookup (data.take 4) := by
  have h : (data.take HEADER_LEN).take 4 = data.take 4 := by
    rw [List.take_take]
    norm_num [HEADER_LEN]
  simp only [FindHeader, headerIDLookup]
  rw [h]

end ARS430Publisher

namespace ARS430Publisher

/-- C9: For each of the six 4-byte magic values, `FindHeader` applied to a
buffer beginning with that magic returns the matching `Headers` variant, and
for any buffer whose 4-byte prefix matches none of them it returns `none`. -/
theorem findHeader_magic_classification :
    (∀ rest, FindHeader (STATUS_HEADER_BYTES ++ rest) = some Headers.STATUS) ∧
    (∀ rest, FindHeader (FAR0_HEADER_BYTES ++ rest) = some Headers.FAR0) ∧
    (∀ rest, FindHeader (FAR1_HEADER_BYTES ++ rest) = some Headers.FAR1) ∧
    (∀ rest, FindHeader (NEAR0_HEADER_BYTES ++ rest) = some Headers.NEAR0) ∧
    (∀ rest, FindHeader (NEAR1_HEADER_BYTES ++ rest) = some Headers.NEAR1) ∧
    (∀ rest, FindHeader (NEAR2_HEADER_BYTES ++ rest) = some Headers.NEAR2) ∧
    (∀ data : List Nat,
      data.take 4 ≠ STATUS_HEADER_BYTES → data.take 4 ≠ FAR0_HEADER_BYTES →
      data.take 4 ≠ FAR1_HEADER_BYTES → data.take 4 ≠ NEAR0_HEADER_BYTES →
      data.take 4 ≠ NEAR1_HEADER_BYTES → data.take 4 ≠ NEAR2_HEADER_BYTES →
      FindHeader data = none) := by
  refine ⟨?_, ?_, ?_, ?_, ?_, ?_, ?_⟩
  · intro rest
    rw [FindHeader_eq_headerIDLookup]
    norm_num [STATUS_HEADER_BYTES, FAR0_HEADER_BYTES, FAR1_HEADER_BYTES,
      NEAR0_HEADER_BYTES, NEAR1_HEADER_BYTES, NEAR2_HEADER_BYTES, headerIDLookup]
  · intro rest
    rw [FindHeader_eq_headerIDLookup]
    norm_num [STATUS_HEADER_BYTES, FAR0_HEADER_BYTES, FAR1_HEADER_BYTES,
      NEAR0_HEADER_BYTES, NEAR1_HEADER_BYTES, NEAR2_HEADER_BYTES, headerIDLookup]
  · intro rest
    rw [FindHeader_eq_headerIDLookup]
    norm_num [STATUS_HEADER_BYTES, FAR0_HEADER_BYTES, FAR1_HEADER_BYTES,
      NEAR0_HEADER_BYTES, NEAR1_HEADER_BYTES, NEAR2_HEADER_BYTES, headerIDLookup]
  · intro rest
    rw [FindHeader_eq_headerIDLookup]
    norm_num [STATUS_HEADER_BYTES, FAR0_HEADER_BYTES, FAR1_HEADER_BYTES,
      NEAR0_HEADER_BYTES, NEAR1_HEADER_BYTES, NEAR2_HEADER_BYTES, headerIDLookup]
  · intro rest
    rw [FindHeader_eq_headerIDLookup]
    norm_num [STATUS_HEADER_BYTES, FAR0_HEADER_BYTES, FAR1_HEADER_BYTES,
      NEAR0_HEADER_BYTES, NEAR1_HEADER_BYTES, NEAR2_HEADER_BYTES, headerIDLookup]
  · intro rest
    rw [FindHeader_eq_headerIDLookup]
    norm_num [STATUS_HEADER_BYTES, FAR0_HEADER_BYTES, FAR1_HEADER_BYTES,
      NEAR0_HEADER_BYTES, NEAR1_HEADER_BYTES, NEAR2_HEADER_BYTES, headerIDLookup]
  · intro data h1 h2 h3 h4 h5 h6
    rw [FindHeader_eq_headerIDLookup]
    simp only [headerIDLookup, if_neg h1, if_neg h2, if_neg h3, if_neg h4,
      if_neg h5, if_neg h6]

/-- Witness for C9 at concrete inputs. -/
theorem findHeader_magic_classification_witness :
    FindHeader (NEAR1_HEADER_BYTES ++ List.replicate 12 0) = some Headers.NEAR1 ∧
    FindHeader [9, 9, 9, 9, 0, 0] = none := by
  refine ⟨findHeader_magic_classification.2.2.2.2.1 _, ?_⟩
  exact findHeader_magic_classification.2.2.2.2.2.2 [9, 9, 9, 9, 0, 0]
    (by decide) (by decide) (by decide) (by decide) (by decide) (by decide)

/-- C10: The classifier's result depends only on the first 4 bytes of its
input: two byte sequences agreeing on bytes [0:4] are classified alike,
whatever their lengths or later bytes. -/
theorem findHeader_depends_only_on_prefix (d1 d2 : List Nat)
    (h : d1.take 4 = d2.take 4) : FindHeader d1 = FindHeader d2 := by
  rw [FindHeader_eq_headerIDLookup, FindHeader_eq_headerIDLookup, h]

/-- Witness for C10: a 5-byte and a 24-byte buffer with the same 4-byte
prefix classify identically. -/
theorem findHeader_depends_only_on_prefix_witness :
    FindHeader [0x00, 0xdc, 0x00, 0x03, 7] =
      FindHeader ([0x00, 0xdc, 0x00, 0x03] ++ List.replicate 20 9) :=
  findHeader_depends_only_on_prefix _ _ (by decide)

/-- C4 counterexample: a buffer of exactly 15 bytes does not fail with
`MalformedHeader` — `FindHeader` performs no length check and classifies it
by its first 4 bytes (here, successfully, as STATUS). -/
theorem fifteen_byte_buffer_classified_not_failed :
    fifteenByteBuffer.length = 15 ∧
    FindHeader fifteenByteBuffer = some Headers.STATUS :=
  ⟨rfl, rfl⟩

/-- C4 (amended): for every input shorter than 16 bytes the Header Classifier
does not fail; it returns exactly the six-way magic lookup on the first
(up to) 4 bytes, the same rule applied to full-length inputs. -/
theorem findHeader_short_input_no_failure (data : List Nat)
    (_h : data.length < 16) : FindHeader data = headerIDLookup (data.take 4) :=
  FindHeader_eq_headerIDLookup data

/-- Witness for the amended C4 at a concrete 7-byte input. -/
theorem findHeader_short_input_no_failure_witness :
    FindHeader [0x00, 0xdc, 0x00, 0x05, 1, 2, 3] =
      headerIDLookup ([0x00, 0xdc, 0x00, 0x05, 1, 2, 3].take 4) :=
  findHeader_short_input_no_failure [0x00, 0xdc, 0x00, 0x05, 1, 2, 3] (by decide)

/-! Lemmas about the detection-decoding loop. -/

/-- A chunk decodes exactly when it is a full 28 bytes. -/
theorem unpackDetection_eq_none_iff (chunk : List Nat) :
    unpackDetection chunk = none ↔ chunk.length ≠ 28 := by
  unfold unpackDetection
  split <;> simp_all

/-- If a taken chunk decodes, at least 28 bytes were available. -/
theorem le_length_of_unpackDetection_take (rest : List Nat)
    (det : RadarDetection)
    (hu : unpackDetection (rest.take RADAR_DETECTION_PACKAGE_LENGTH) = some det) :
    28 ≤ rest.length := by
  by_contra hlt
  have hne : (rest.take RADAR_DETECTION_PACKAGE_LENGTH).length ≠ 28 := by
    simp only [List.length_take, RADAR_DETECTION_PACKAGE_LENGTH]
    omega
  rw [unpackDetection, if_neg hne] at hu
  exact Option.noConfusion hu

/-- Length of the decoded list on the loop's non-erroring runs: the loop
decodes `min d (len/28)` chunks, where `d` is the remaining permitted count
`numDetections + 1 - k`. -/
theorem unpackDetectionsAux_length (d : Nat) :
    ∀ rest : List Nat, 28 ∣ rest.length ∨ d ≤ rest.length / 28 →
      (unpackDetectionsAux d rest).map List.length =
        Except.ok (min d (rest.length / 28)) := by
  induction d with
  | zero =>
    intro rest _
    simp [unpackDetectionsAux, Except.map]
  | succ d ih =>
    intro rest h
    by_cases h0 : rest.length = 0
    · rw [unpackDetectionsAux, if_pos h0, h0]
      simp [Except.map]
    · rw [unpackDetectionsAux, if_neg h0]
      cases hu : unpackDetection (rest.take RADAR_DETECTION_PACKAGE_LENGTH) with
      | none =>
        exfalso
        have hlt : rest.length < 28 := by
          have := (unpackDetection_eq_none_iff _).mp hu
          simp only [List.length_take, RADAR_DETECTION_PACKAGE_LENGTH] at this
          omega
        omega
      | some det =>
        have h28 : 28 ≤ rest.length := le_length_of_unpackDetection_take rest det hu
        have hdrop : (rest.drop RADAR_DETECTION_PACKAGE_LENGTH).length =
            rest.length - 28 := by
          simp [RADAR_DETECTION_PACKAGE_LENGTH]
        have ih' := ih (rest.drop RADAR_DETECTION_PACKAGE_LENGTH) (by rw [hdrop]; omega)
        cases haux : unpackDetectionsAux d (rest.drop RADAR_DETECTION_PACKAGE_LENGTH) with
        | error e =>
          rw [haux] at ih'
          simp [Except.map] at ih'
        | ok l =>
          rw [haux] at ih'
          simp only [Except.map, Except.ok.injEq] at ih'
          simp only [haux, Except.map, Except.ok.injEq, List.length_cons]
          rw [ih', hdrop]
          omega

/-- When the buffer is not chunk-aligned and the declared count does not stop
the loop before the short trailing chunk, the loop raises `struct.error`. -/
theorem unpackDetectionsAux_error (d : Nat) :
    ∀ rest : List Nat, ¬ 28 ∣ rest.length → rest.length / 28 < d →
      unpackDetectionsAux d rest = Except.error "struct.error" := by
  induction d with
  | zero =>
    intro rest _ hlt
    omega
  | succ d ih =>
    intro rest hnd hlt
    have h0 : rest.length ≠ 0 := by
      intro hc
      rw [hc] at hnd
      exact hnd ⟨0, rfl⟩
    rw [unpackDetectionsAux, if_neg h0]
    cases hu : unpackDetection (rest.take RADAR_DETECTION_PACKAGE_LENGTH) with
    | none => rfl
    | some det =>
      have h28 : 28 ≤ rest.length := le_length_of_unpackDetection_take rest det hu
      have hdrop : (rest.drop RADAR_DETECTION_PACKAGE_LENGTH).length =
          rest.length - 28 := by
        simp [RADAR_DETECTION_PACKAGE_LENGTH]
      have ih' := ih (rest.drop RADAR_DETECTION_PACKAGE_LENGTH)
        (by rw [hdrop]; omega) (by rw [hdrop]; omega)
      rw [ih']
      rfl

/-- C1 counterexample: 56 available bytes (two full chunks) with declared
count `DetectionsInPacket = 1` decode to a DetectionList of length 2, which
exceeds `min(DetectionsInPacket, floor(available_bytes/28)) = 1`. -/
theorem detection_count_off_by_one_counterexample :
    (UnpackRadarDetections (List.replicate 56 0) 1).map List.length =
        Except.ok 2 ∧
      (2 : Nat) ≠ min 1 ((List.replicate 56 0).length / 28) :=
  ⟨rfl, by decide⟩

/-- C1 (amended): whenever the Detection Record Decoder completes without a
struct error — i.e. the buffer is a whole number of 28-byte chunks, or holds
more than `DetectionsInPacket` full chunks — the resulting DetectionList has
length `min (DetectionsInPacket + 1) (floor(available_bytes/28))`: the loop
bound `index/28 <= numDetections` admits one chunk more than the declared
count, so the length may exceed `DetectionsInPacket` by one. -/
theorem unpackRadarDetections_length (bytes : List Nat) (numDetections : Nat)
    (h : 28 ∣ bytes.length ∨ numDetections < bytes.length / 28) :
    (UnpackRadarDetections bytes numDetections).map List.length =
      Except.ok (min (numDetections + 1) (bytes.length / 28)) := by
  apply unpackDetectionsAux_length
  omega

/-- Witness for the amended C1: 84 zero bytes with declared count 1 decode to
`min 2 3 = 2` detections. -/
theorem unpackRadarDetections_length_witness :
    (UnpackRadarDetections (List.replicate 84 0) 1).map List.length =
      Except.ok (min (1 + 1) ((List.replicate 84 0).length / 28)) :=
  unpackRadarDetections_length (List.replicate 84 0) 1 (by decide)

/-- C3 counterexample: a 29-byte buffer (one full chunk plus one trailing
byte) with declared count 1 — the loop reaches the 1-byte trailing chunk and
`struct.unpack` raises, so decoding errors instead of stopping early. -/
theorem short_chunk_raises_counterexample :
    UnpackRadarDetections (List.replicate 29 0) 1 = Except.error "struct.error" :=
  rfl

/-- C3 (amended): for every buffer that is not a multiple of 28 bytes long,
if the declared count does not exhaust the loop before the short trailing
chunk (`floor(len/28) ≤ DetectionsInPacket`), decoding the trailing chunk
raises `struct.error`; it does not terminate the loop cleanly. -/
theorem unpackRadarDetections_short_chunk_error (bytes : List Nat)
    (numDetections : Nat) (h1 : ¬ 28 ∣ bytes.length)
    (h2 : bytes.length / 28 ≤ numDetections) :
    UnpackRadarDetections bytes numDetections = Except.error "struct.error" :=
  unpackDetectionsAux_error (numDetections + 1) bytes h1 (by omega)

/-- Witness for the amended C3 at a concrete 30-byte input. -/
theorem unpackRadarDetections_short_chunk_error_witness :
    UnpackRadarDetections (List.replicate 30 0) 5 = Except.error "struct.error" :=
  unpackRadarDetections_short_chunk_error (List.replicate 30 0) 5
    (by decide) (by decide)

/-! Lemmas about the aggregator. -/

/-- The last element of a list is a member of it. -/
theorem mem_of_getLast_opt {α : Type} {l : List α} {a : α}
    (h : l.getLast? = some a) : a ∈ l := by
  have hne : l ≠ [] := by
    rintro rfl
    simp at h
  rw [List.getLast?_eq_getLast_of_ne_nil hne] at h
  obtain rfl : l.getLast hne = a := by injection h
  exact List.getLast_mem hne

/-- `__storeEvent` on an empty buffer: save the packet, return nothing. -/
theorem storeEvent_nil (e : ARS430Event) : storeEvent e [] = ([], [e]) :=
  rfl

/-- `__storeEvent` when the last buffered timestamp matches: append, return
nothing. -/
theorem storeEvent_eq_ts (e : ARS430Event) (l : List ARS430Event)
    (last : ARS430Event) (hgl : l.getLast? = some last)
    (hts : last.Timestamp = e.Timestamp) :
    storeEvent e l = ([], l ++ [e]) := by
  unfold storeEvent
  rw [hgl]
  simp [hts]

/-- `__storeEvent` when the last buffered timestamp differs: return the old
list, reseed the buffer with the new packet. -/
theorem storeEvent_ne_ts (e : ARS430Event) (l : List ARS430Event)
    (last : ARS430Event) (hgl : l.getLast? = some last)
    (hts : ¬ last.Timestamp = e.Timestamp) :
    storeEvent e l = (l, [e]) := by
  unfold storeEvent
  rw [hgl]
  simp [hts]

/-- The buffer contents after `__storeEvent` still share one timestamp. -/
theorem storeEvent_snd_sameTimestamp (e : ARS430Event) (l : List ARS430Event)
    (hl : sameTimestamp l) : sameTimestamp (storeEvent e l).2 := by
  cases hgl : l.getLast? with
  | none =>
    obtain rfl : l = [] := List.getLast?_eq_none_iff.mp hgl
    rw [storeEvent_nil]
    intro x hx y hy
    have hx' : x = e := by simpa using hx
    have hy' : y = e := by simpa using hy
    rw [hx', hy']
  | some last =>
    have hlast : last ∈ l := mem_of_getLast_opt hgl
    by_cases hts : last.Timestamp = e.Timestamp
    · rw [storeEvent_eq_ts e l last hgl hts]
      intro x hx y hy
      rcases List.mem_append.mp hx with hx' | hx' <;>
        rcases List.mem_append.mp hy with hy' | hy'
      · exact hl x hx' y hy'
      · have hy'' : y = e := by simpa using hy'
        rw [hy'']
        exact (hl x hx' last hlast).trans hts
      · have hx'' : x = e := by simpa using hx'
        rw [hx'']
        exact hts.symm.trans (hl last hlast y hy')
      · have hx'' : x = e := by simpa using hx'
        have hy'' : y = e := by simpa using hy'
        rw [hx'', hy'']
    · rw [storeEvent_ne_ts e l last hgl hts]
      intro x hx y hy
      have hx' : x = e := by simpa using hx
      have hy' : y = e := by simpa using hy
      rw [hx', hy']

/-- The buffer state after `publishTogether`: STATUS leaves both buffers
alone; a NEAR arrival updates only the NEAR buffer through `__storeEvent`;
anything else updates only the FAR buffer. -/
theorem publishTogether_snd (ip : String) (s : AggState) (p : ARS430Event)
    (h : Headers) :
    (publishTogether ip s p h).2 =
      if isStatus h then s
      else if isNear h then
        { s with nearPackets :=
            (storeEvent { p with sourceIP := ip } s.nearPackets).2 }
      else
        { s with farPackets :=
            (storeEvent { p with sourceIP := ip } s.farPackets).2 } := by
  unfold publishTogether
  by_cases hs : isStatus h
  · simp [hs]
  · by_cases hn : isNear h
    · simp only [hs, hn, Bool.false_eq_true, if_false, if_true]
      split <;> rfl
    · simp only [hs, hn, Bool.false_eq_true, if_false]
      split <;> rfl

/-- One `publishTogether` step preserves the same-timestamp invariant of
both buffers. -/
theorem publishTogether_preserves_sameTimestamp (ip : String) (s : AggState)
    (p : ARS430Event) (h : Headers) (h1 : sameTimestamp s.nearPackets)
    (h2 : sameTimestamp s.farPackets) :
    sameTimestamp (publishTogether ip s p h).2.nearPackets ∧
      sameTimestamp (publishTogether ip s p h).2.farPackets := by
  rw [publishTogether_snd]
  by_cases hs : isStatus h
  · simp only [hs, if_true]
    exact ⟨h1, h2⟩
  · by_cases hn : isNear h
    · simp only [hs, hn, Bool.false_eq_true, if_false, if_true]
      exact ⟨storeEvent_snd_sameTimestamp _ _ h1, h2⟩
    · simp only [hs, hn, Bool.false_eq_true, if_false]
      exact ⟨h1, storeEvent_snd_sameTimestamp _ _ h2⟩

/-- Any run of the aggregator from a state satisfying the invariant ends in
a state satisfying it. -/
theorem runAgg_preserves_sameTimestamp (ip : String)
    (arrivals : List (ARS430Event × Headers)) :
    ∀ s : AggState, sameTimestamp s.nearPackets → sameTimestamp s.farPackets →
      sameTimestamp (runAgg ip s arrivals).nearPackets ∧
        sameTimestamp (runAgg ip s arrivals).farPackets := by
  induction arrivals with
  | nil =>
    intro s h1 h2
    exact ⟨h1, h2⟩
  | cons pe rest ih =>
    intro s h1 h2
    have hstep := publishTogether_preserves_sameTimestamp ip s pe.1 pe.2 h1 h2
    simpa [runAgg] using ih (publishTogether ip s pe.1 pe.2).2 hstep.1 hstep.2

end ARS430Publisher

namespace ARS430Publisher

/-- C2: `__storeEvent` on a buffer holding reports of one timestamp `ts`:
an arrival with a different timestamp returns the prior list (the flushed
batch) and resets the buffer to exactly the new report; an arrival into an
empty buffer, or with the same timestamp, returns no batch and appends.
Concretely, feeding timestamps [5,5,5,7] yields no flush on the first three
arrivals and exactly one flush — of the three Timestamp-5 reports — on the
fourth, after which the buffer holds only the Timestamp-7 report. -/
theorem storeEvent_flush_behaviour :
    (∀ (e : ARS430Event) (ts : Nat) (l : List ARS430Event), l ≠ [] →
      (∀ x ∈ l, x.Timestamp = ts) → e.Timestamp ≠ ts →
      storeEvent e l = (l, [e])) ∧
    (∀ (e : ARS430Event) (ts : Nat) (l : List ARS430Event),
      (∀ x ∈ l, x.Timestamp = ts) → e.Timestamp = ts →
      storeEvent e l = ([], l ++ [e])) ∧
    (storeEvent ev5a [] = ([], [ev5a]) ∧
      storeEvent ev5b [ev5a] = ([], [ev5a, ev5b]) ∧
      storeEvent ev5c [ev5a, ev5b] = ([], [ev5a, ev5b, ev5c]) ∧
      storeEvent ev7 [ev5a, ev5b, ev5c] = ([ev5a, ev5b, ev5c], [ev7])) := by
  refine ⟨?_, ?_, rfl, rfl, rfl, rfl⟩
  · intro e ts l hne hl hts
    obtain ⟨last, hgl⟩ : ∃ last, l.getLast? = some last := by
      cases hgl : l.getLast? with
      | none => exact absurd (List.getLast?_eq_none_iff.mp hgl) hne
      | some last => exact ⟨last, rfl⟩
    refine storeEvent_ne_ts e l last hgl ?_
    rw [hl last (mem_of_getLast_opt hgl)]
    exact fun hc => hts hc.symm
  · intro e ts l hl hts
    cases hgl : l.getLast? with
    | none =>
      obtain rfl : l = [] := List.getLast?_eq_none_iff.mp hgl
      exact storeEvent_nil e
    | some last =>
      refine storeEvent_eq_ts e l last hgl ?_
      rw [hl last (mem_of_getLast_opt hgl), hts]

/-- Witness for C2: a Timestamp-7 arrival into a buffer holding one
Timestamp-5 report flushes that report and reseeds the buffer. -/
theorem storeEvent_flush_behaviour_witness :
    storeEvent ev7 [ev5a] = ([ev5a], [ev7]) :=
  storeEvent_flush_behaviour.1 ev7 5 [ev5a] (by decide) (by decide) (by decide)

/-- C8: in every aggregator state reachable from the initial state (both
buffers empty) by any arrival sequence, all NEAR-buffer elements share one
Timestamp and all FAR-buffer elements share one Timestamp; moreover a FAR
arrival leaves the NEAR buffer unchanged, a NEAR arrival leaves the FAR
buffer unchanged, and a STATUS packet touches neither buffer. -/
theorem aggregator_buffer_invariants :
    (∀ (ip : String) (arrivals : List (ARS430Event × Headers)),
      sameTimestamp (runAgg ip initialAggState arrivals).nearPackets ∧
        sameTimestamp (runAgg ip initialAggState arrivals).farPackets) ∧
    (∀ (ip : String) (s : AggState) (e : ARS430Event) (h : Headers),
      isFar h = true →
      (publishTogether ip s e h).2.nearPackets = s.nearPackets) ∧
    (∀ (ip : String) (s : AggState) (e : ARS430Event) (h : Headers),
      isNear h = true →
      (publishTogether ip s e h).2.farPackets = s.farPackets) ∧
    (∀ (ip : String) (s : AggState) (e : ARS430Event),
      (publishTogether ip s e Headers.STATUS).2 = s) := by
  refine ⟨?_, ?_, ?_, ?_⟩
  · intro ip arrivals
    refine runAgg_preserves_sameTimestamp ip arrivals initialAggState ?_ ?_ <;>
      intro x hx <;> simp [initialAggState] at hx
  · intro ip s e h hf
    rw [publishTogether_snd]
    cases h
    · exact absurd hf (by decide)
    · rfl
    · rfl
    · exact absurd hf (by decide)
    · exact absurd hf (by decide)
    · exact absurd hf (by decide)
  · intro ip s e h hn
    rw [publishTogether_snd]
    cases h
    · exact absurd hn (by decide)
    · exact absurd hn (by decide)
    · exact absurd hn (by decide)
    · rfl
    · rfl
    · rfl
  · intro ip s e
    rfl

/-- Witness for C8 at concrete arrivals and states. -/
theorem aggregator_buffer_invariants_witness :
    sameTimestamp
        (runAgg "ip" initialAggState
          [(ev5a, Headers.NEAR0), (ev7, Headers.FAR1)]).nearPackets ∧
      (publishTogether "ip" { nearPackets := [ev5a] } ev7 Headers.FAR0).2.nearPackets =
        (AggState.mk [ev5a] []).nearPackets ∧
      (publishTogether "ip" { farPackets := [ev7] } ev5a Headers.NEAR2).2.farPackets =
        (AggState.mk [] [ev7]).farPackets ∧
      (publishTogether "ip" { nearPackets := [ev5a] } ev7 Headers.STATUS).2 =
        { nearPackets := [ev5a] } :=
  ⟨(aggregator_buffer_invariants.1 "ip" [(ev5a, Headers.NEAR0), (ev7, Headers.FAR1)]).1,
    aggregator_buffer_invariants.2.1 "ip" { nearPackets := [ev5a] } ev7 Headers.FAR0 rfl,
    aggregator_buffer_invariants.2.2.1 "ip" { farPackets := [ev7] } ev5a Headers.NEAR2 rfl,
    aggregator_buffer_invariants.2.2.2 "ip" { nearPackets := [ev5a] } ev7⟩

/-- C6: in the immediate-emission mode, a STATUS record goes to the statuses
topic unconditionally, and an event record goes to the events topic exactly
when `DetInPack > 0`; an event with zero detections is suppressed. -/
theorem publishNow_policy :
    (∀ (ip : String) (p : ARS430Status),
      (publishNow ip (UnpackedPacket.status p) Headers.STATUS).1 =
        PublishAction.toStatusTopic) ∧
    (∀ (ip : String) (e : ARS430Event) (h : Headers), isStatus h = false →
      ((publishNow ip (UnpackedPacket.event e) h).1 =
          PublishAction.toEventTopic ↔ 0 < e.DetInPack)) ∧
    (∀ (ip : String) (e : ARS430Event) (h : Headers), isStatus h = false →
      e.DetInPack = 0 →
      (publishNow ip (UnpackedPacket.event e) h).1 = PublishAction.noPublish) := by
  refine ⟨fun ip p => rfl, ?_, ?_⟩
  · intro ip e h hs
    unfold publishNow
    simp only [hs, Bool.false_eq_true, if_false, UnpackedPacket.setSourceIP]
    by_cases hd : 0 < e.DetInPack <;> simp [hd]
  · intro ip e h hs hd
    unfold publishNow
    simp [hs, UnpackedPacket.setSourceIP, hd]

/-- Witness for C6 at a concrete status and a concrete event. -/
theorem publishNow_policy_witness :
    (publishNow "192.168.1.2" (UnpackedPacket.status {}) Headers.STATUS).1 =
        PublishAction.toStatusTopic ∧
      ((publishNow "192.168.1.2" (UnpackedPacket.event ev5a) Headers.NEAR0).1 =
          PublishAction.toEventTopic ↔ 0 < ev5a.DetInPack) ∧
      (publishNow "192.168.1.2" (UnpackedPacket.event ev5a) Headers.NEAR0).1 =
        PublishAction.noPublish :=
  ⟨publishNow_policy.1 "192.168.1.2" {},
    publishNow_policy.2.1 "192.168.1.2" ev5a Headers.NEAR0 rfl,
    publishNow_policy.2.2 "192.168.1.2" ev5a Headers.NEAR0 rfl rfl⟩

/-- C5 counterexample: a raw packet whose first 4 bytes match no magic, with
a well-formed 32-byte event body behind the header, is not skipped:
`Unpack` takes the event branch and raises `AttributeError` evaluating
`headerType.value` with `headerType = None`. -/
theorem unknown_magic_raises_counterexample :
    Unpack unknownHeaderPacket = Except.error "AttributeError" :=
  rfl

/-- C5 (amended): for every raw packet whose first 4 bytes match none of the
six magics, `Unpack` raises an error (a struct error from the event decoder,
or the AttributeError on the absent header value) — it never skips the
packet silently and never returns a decoded record. -/
theorem unpack_unknown_magic_errors (udpData : List Nat)
    (h : FindHeader udpData = none) : (Unpack udpData).isOk = false := by
  unfold Unpack
  rw [h]
  cases hE : UnpackEvent (udpData.drop HEADER_LEN) <;>
    simp [hE, Except.isOk, Except.toBool]

/-- Witness for the amended C5 at a concrete packet. -/
theorem unpack_unknown_magic_errors_witness :
    (Unpack unknownHeaderPacket).isOk = false :=
  unpack_unknown_magic_errors unknownHeaderPacket rfl

/-- C7 counterexample: decoding a status payload with raw CurrentDamping
2000000000 yields `(2e9 * 0.931322575049159 - 2e9) / 1e8 ≈ -1.3735 dB`,
which is below −1 and hence not 0.0 dB within epsilon. -/
theorem current_damping_not_zero_counterexample :
    (UnpackStatus statusC7Input).map ARS430Status.CurrentDamping =
        Except.ok ((((2000000000 : Nat) : ℚ) * 0.931322575049159 - 2000000000) /
          100000000) ∧
      (((2000000000 : Nat) : ℚ) * 0.931322575049159 - 2000000000) / 100000000 <
        -1 :=
  ⟨rfl, by norm_num⟩

/-- C7 (amended): with raw CurrentDamping 2000000000 the decoded value is
exactly −68677424950841/50000000000000 ≈ −1.37354849901682 dB (not 0.0 dB),
and raw MaximumRangeFar 3000 decodes to exactly 300 m. -/
theorem status_scaling_values :
    (UnpackStatus statusC7Input).map
        (fun s => (s.CurrentDamping, s.MaximumRangeFar)) =
      Except.ok (-68677424950841 / 50000000000000, 300) := by
  have h : (UnpackStatus statusC7Input).map
      (fun s => (s.CurrentDamping, s.MaximumRangeFar)) =
      Except.ok
        ((((2000000000 : Nat) : ℚ) * 0.931322575049159 - 2000000000) / 100000000,
          ((3000 : Nat) : ℚ) * 0.1) := rfl
  rw [h]
  norm_num

end ARS430Publisher
